import Mathlib

/-!
# Verification of the seed-environment lock-file build utility

Shallow embedding, in Lean 4, of the Python sources of the
`python_seed_env` repository:

* `lock_to_lower_bound_project.py` — the lower-bound rewrite of a lock
  file into the `dependencies = [...]` array of a project descriptor;
* `utils.py` — project-descriptor generation, the `uv`-driving
  `build_seed_env` sequence, and the GitHub API helpers
  (`_check_github_rest_api_message`, `is_valid_commit`,
  `get_commit_hash_for_tag`);
* `generate_seed_env_lock_files.py` — the conditional constraint-removal
  flow;
* `build_maxtext_lock_cli.py` — the per-version, per-machine-type
  orchestration driver.

External effects (the `uv` subprocess, HTTP fetches, the filesystem) are
modelled as explicit parameters: an `exec` oracle giving each command's
exit code and produced output, `FetchOutcome` values for HTTP responses,
and `Option (List String)` for the line contents of files that may or
may not exist.  Python exceptions are modelled with `Except`; a
`sys.exit(1)` is the `.error` case of `Except Unit`.
-/

namespace SeedEnv

set_option autoImplicit false

/-! ## Python string primitives

`pyContains` is `pat in s` (substring containment), `pyStrip` is
`str.strip()` (remove leading/trailing whitespace), `pyReplace` is
`str.replace(old, new)` (replace every non-overlapping occurrence, left
to right).  All are defined on `List Char` first, by structural
recursion (a fuel argument bounded by the string length replaces
Python's cursor), so that concrete instances reduce in the kernel. -/

/-- Python `str.isspace` set for the characters `strip` removes:
space, tab, newline, carriage return, vertical tab, form feed. -/
def isPyWhitespace (c : Char) : Bool :=
  c = ' ' || c = '\t' || c = '\n' || c = '\r' || c = '\x0b' || c = '\x0c'

/-- `isPrefixL pat s` : does `pat` occur at the head of `s`? -/
def isPrefixL : List Char → List Char → Bool
  | [], _ => true
  | _ :: _, [] => false
  | a :: as, b :: bs => a = b && isPrefixL as bs

/-- `containsSub pat s` : does `pat` occur as a contiguous substring of
`s`?  (Python's `pat in s`.) -/
def containsSub (pat : List Char) : List Char → Bool
  | [] => isPrefixL pat []
  | c :: cs => isPrefixL pat (c :: cs) || containsSub pat cs

/-- One step of Python `str.replace`: scan left to right, replacing each
non-overlapping occurrence of `pat` (when `pat` is non-empty).  The fuel
argument is instantiated with the string length; every step consumes at
least one character, so that fuel always suffices. -/
def replaceAllGo (pat repl : List Char) : Nat → List Char → List Char
  | _, [] => []
  | 0, s => s
  | f + 1, c :: cs =>
    if isPrefixL pat (c :: cs) && !pat.isEmpty then
      repl ++ replaceAllGo pat repl f (List.drop pat.length (c :: cs))
    else
      c :: replaceAllGo pat repl f cs

/-- Python `s.replace(pat, repl)` on character lists. -/
def replaceAll (pat repl s : List Char) : List Char :=
  replaceAllGo pat repl s.length s

/-- Python `pat in s` on strings. -/
def pyContains (s pat : String) : Bool :=
  containsSub pat.toList s.toList

/-- Python `s.strip()`. -/
def pyStrip (s : String) : String :=
  String.mk (((s.toList.dropWhile isPyWhitespace).reverse.dropWhile
    isPyWhitespace).reverse)

/-- Python `s.replace(old, new)`. -/
def pyReplace (s old new : String) : String :=
  String.mk (replaceAll old.toList new.toList s.toList)

/-! ### Basic lemmas about the string primitives -/

theorem isPrefixL_nil_right (pat : List Char) (h : pat ≠ []) :
    isPrefixL pat [] = false := by
  cases pat with
  | nil => exact absurd rfl h
  | cons a as => rfl

theorem containsSub_of_isPrefixL (pat s : List Char)
    (h : isPrefixL pat s = true) : containsSub pat s = true := by
  cases s with
  | nil => simpa [containsSub] using h
  | cons c cs => simp [containsSub, h]

theorem containsSub_cons_iff (pat : List Char) (c : Char) (cs : List Char) :
    containsSub pat (c :: cs) = true ↔
      (isPrefixL pat (c :: cs) = true ∨ containsSub pat cs = true) := by
  simp [containsSub]

/-- A non-empty pattern never occurs in the empty string. -/
theorem containsSub_nil (pat : List Char) (h : pat ≠ []) :
    containsSub pat [] = false := by
  simp [containsSub, isPrefixL_nil_right pat h]

/-- If a non-empty pattern occurs in `s`, then `s` is non-empty. -/
theorem ne_nil_of_containsSub (pat s : List Char) (hp : pat ≠ [])
    (h : containsSub pat s = true) : s ≠ [] := by
  intro hs
  rw [hs, containsSub_nil pat hp] at h
  exact Bool.noConfusion h

/-- `replace` is the identity when the pattern does not occur. -/
theorem replaceAllGo_of_not_contains (pat repl : List Char) :
    ∀ (f : Nat) (s : List Char), containsSub pat s = false →
      replaceAllGo pat repl f s = s := by
  intro f
  induction f with
  | zero => intro s _; cases s <;> rfl
  | succ f ih =>
    intro s hs
    cases s with
    | nil => rfl
    | cons c cs =>
      have hsplit : isPrefixL pat (c :: cs) = false ∧
          containsSub pat cs = false := by
        have := (Bool.or_eq_false_iff).mp (by simpa [containsSub] using hs)
        exact this
      rw [replaceAllGo]
      rw [hsplit.1]
      simp [ih cs hsplit.2]

theorem replaceAll_of_not_contains (pat repl s : List Char)
    (h : containsSub pat s = false) : replaceAll pat repl s = s :=
  replaceAllGo_of_not_contains pat repl s.length s h

theorem pyReplace_of_not_contains (s old new : String)
    (h : pyContains s old = false) : pyReplace s old new = s := by
  unfold pyReplace
  rw [replaceAll_of_not_contains _ _ _ h]
  rfl

/-! ## `lock_to_lower_bound_project.py`

The three pure text operations of the script.  File IO is factored out:
`read_requirements_lock_file` receives the list of lines of the lock
file (as Python's `for line in file` yields them), and
`replace_dependencies_in_project_toml` (further below, once the regex
engine is in place) receives the descriptor's content string. -/

/-- Loop body of `read_requirements_lock_file` (lines 21–23): keep each
line that contains no `#` and contains `==` or `@`, appending its
stripped form to the accumulator. -/
def readLockStep (lines : List String) (line : String) : List String :=
  if !(pyContains line "#") &&
      (pyContains line "==" || pyContains line "@") then
    lines ++ [pyStrip line]
  else lines

/-- `read_requirements_lock_file` (lines 18–24), the Python loop as a
fold over the file's lines. -/
def read_requirements_lock_file (fileLines : List String) : List String :=
  fileLines.foldl readLockStep []

/-- The keep-condition in the words of the specification: the line
contains no comment marker `#` and contains an exact-version pin `==` or
a source reference `@`. -/
def keeps_line (line : String) : Bool :=
  !(pyContains line "#") && (pyContains line "==" || pyContains line "@")

/-- Loop body of `convert_deps_to_lower_bound` (lines 28–32): rewrite
`==` to `>=` when `==` occurs in the dependency, else keep it as is. -/
def convertDepStep (lowerBoundDeps : List String) (pinnedDep : String) :
    List String :=
  lowerBoundDeps ++
    [if pyContains pinnedDep "==" then pyReplace pinnedDep "==" ">="
     else pinnedDep]

/-- `convert_deps_to_lower_bound` (lines 26–34), the Python loop as a
fold over the pinned dependencies. -/
def convert_deps_to_lower_bound (pinnedDeps : List String) : List String :=
  pinnedDeps.foldl convertDepStep []

/-- `lower_boud_deps_to_string` (lines 36–37), name as in the source:
splice the dependency list into a quoted, comma-newline-separated
`dependencies = [...]` block. -/
def lower_boud_deps_to_string (lowerBoundDeps : List String) : String :=
  "dependencies = [\n    \"" ++
    String.intercalate "\",\n    \"" lowerBoundDeps ++ "\"\n]"

theorem readLockStep_eq (lines : List String) (line : String) :
    readLockStep lines line =
      if keeps_line line then lines ++ [pyStrip line] else lines := rfl

theorem read_requirements_foldl (fileLines : List String) :
    ∀ acc : List String,
      fileLines.foldl readLockStep acc
      = acc ++ (fileLines.filter keeps_line).map pyStrip := by
  induction fileLines with
  | nil => intro acc; simp
  | cons l ls ih =>
    intro acc
    rw [List.foldl_cons, readLockStep_eq]
    by_cases h : keeps_line l = true
    · rw [List.filter_cons]
      simp only [h, if_true, ih]
      simp
    · have h' : keeps_line l = false := Bool.eq_false_iff.mpr h
      rw [List.filter_cons]
      simp only [h', if_false, Bool.false_eq_true, ih]

theorem read_requirements_lock_file_eq (fileLines : List String) :
    read_requirements_lock_file fileLines
      = (fileLines.filter keeps_line).map pyStrip := by
  simpa using read_requirements_foldl fileLines []

theorem convert_deps_foldl (deps : List String) :
    ∀ acc : List String,
      deps.foldl convertDepStep acc
      = acc ++ deps.map (fun d => pyReplace d "==" ">=") := by
  induction deps with
  | nil => intro acc; simp
  | cons d ds ih =>
    intro acc
    rw [List.foldl_cons]
    by_cases h : pyContains d "==" = true
    · simp only [convertDepStep, h, if_true, ih]
      simp
    · have h' : pyContains d "==" = false := Bool.eq_false_iff.mpr h
      simp only [convertDepStep, h', if_false, Bool.false_eq_true, ih,
        pyReplace_of_not_contains d "==" ">=" h']
      simp [pyReplace_of_not_contains d "==" ">=" h']

theorem convert_deps_to_lower_bound_eq (deps : List String) :
    convert_deps_to_lower_bound deps
      = deps.map (fun d => pyReplace d "==" ">=") := by
  simpa using convert_deps_foldl deps []

/-! ## A backtracking regex engine for the `dependencies` pattern

`replace_dependencies_in_project_toml` (lines 4–15) substitutes the
Python regex

  `^dependencies\s*=\s*\[(\n+\s*.*,\s*)*[\n\r]*\]`

compiled with `re.MULTILINE`, so `^` matches at the start of the content
or right after a `\n`, and `.` matches any character except `\n`.  The
engine below reproduces Python's leftmost, greedy, backtracking match:
`rxRun` returns the list of possible suffixes after a match, in the
engine's preference order (greedy quantifiers try longer matches first),
and the head of that list is the match Python commits to.  A fuel
argument bounds the recursion; every `star` iteration is required to
consume at least one character, exactly Python's no-empty-repeat rule,
so `rxFuel` below is a generous upper bound on the frame depth. -/

/-- Regular expressions over characters: empty word, single-character
class, concatenation, alternation, Kleene star. -/
inductive Rx : Type
  | eps : Rx
  | cls (p : Char → Bool) : Rx
  | seq (a b : Rx) : Rx
  | alt (a b : Rx) : Rx
  | star (a : Rx) : Rx

/-- Concatenation of a literal string, character by character. -/
def Rx.lit (s : String) : Rx :=
  s.toList.foldr (fun c r => Rx.seq (Rx.cls (fun d => d = c)) r) Rx.eps

/-- `a+` as `a a*`. -/
def Rx.plus (a : Rx) : Rx := Rx.seq a (Rx.star a)

/-- Backtracking matcher: all suffixes remaining after a match of `r`
against a prefix of `s`, in preference order. -/
def rxRun : Nat → Rx → List Char → List (List Char)
  | 0, _, _ => []
  | _ + 1, Rx.eps, s => [s]
  | _ + 1, Rx.cls _, [] => []
  | _ + 1, Rx.cls p, c :: cs => if p c then [cs] else []
  | f + 1, Rx.seq a b, s => (rxRun f a s).flatMap (rxRun f b)
  | f + 1, Rx.alt a b, s => rxRun f a s ++ rxRun f b s
  | f + 1, Rx.star a, s =>
    ((rxRun f a s).filter (fun t => t.length < s.length)).flatMap
      (rxRun f (Rx.star a)) ++ [s]

/-- Python `\s` character class. -/
def isPyRegexSpace (c : Char) : Bool := isPyWhitespace c

/-- The group `(\n+\s*.*,\s*)*`'s body: `\n+ \s* .* , \s*` where `.`
excludes `\n`. -/
def depGroup : Rx :=
  Rx.seq (Rx.plus (Rx.cls (fun c => c = '\n')))
    (Rx.seq (Rx.star (Rx.cls isPyRegexSpace))
      (Rx.seq (Rx.star (Rx.cls (fun c => c ≠ '\n')))
        (Rx.seq (Rx.lit ",") (Rx.star (Rx.cls isPyRegexSpace)))))

/-- The full pattern after the `^` anchor:
`dependencies \s* = \s* \[ (\n+\s*.*,\s*)* [\n\r]* \]`. -/
def depRegex : Rx :=
  Rx.seq (Rx.lit "dependencies")
    (Rx.seq (Rx.star (Rx.cls isPyRegexSpace))
      (Rx.seq (Rx.lit "=")
        (Rx.seq (Rx.star (Rx.cls isPyRegexSpace))
          (Rx.seq (Rx.lit "[")
            (Rx.seq (Rx.star depGroup)
              (Rx.seq (Rx.star (Rx.cls (fun c => c = '\n' || c = '\r')))
                (Rx.lit "]")))))))

/-- Fuel bound: the regex has fewer than 64 nodes and each `star`
iteration consumes a character, so the frame depth of `rxRun` is below
`64 * (length + 2)`. -/
def rxFuel (s : List Char) : Nat := 64 * (s.length + 2)

/-- The suffix left after the match Python's engine commits to at this
position, if the pattern matches here. -/
def depMatchAt (s : List Char) : Option (List Char) :=
  (rxRun (rxFuel s) depRegex s).head?

/-- One scan step of `re.sub` with `re.MULTILINE`: at each position
where `^` matches (`atLineStart`), try the pattern; on a (necessarily
non-empty) match, emit the replacement and resume after the matched
text; otherwise copy one character.  Fuel is the remaining length. -/
def depSubGo (newDeps : List Char) : Nat → Bool → List Char → List Char
  | 0, _, s => s
  | _ + 1, _, [] => []
  | f + 1, atLineStart, c :: cs =>
    if atLineStart then
      match depMatchAt (c :: cs) with
      | some rest =>
        if rest.length < (c :: cs).length then
          newDeps ++
            depSubGo newDeps f
              (((c :: cs).take ((c :: cs).length - rest.length)).getLast?
                  = some '\n') rest
        else c :: depSubGo newDeps f (c = '\n') cs
      | none => c :: depSubGo newDeps f (c = '\n') cs
    else c :: depSubGo newDeps f (c = '\n') cs

/-- Scan for a match of the anchored pattern anywhere in the content:
`true` exactly when `depSubGo` would substitute somewhere. -/
def depFindGo : Nat → Bool → List Char → Bool
  | 0, _, _ => false
  | _ + 1, _, [] => false
  | f + 1, atLineStart, c :: cs =>
    (atLineStart &&
      match depMatchAt (c :: cs) with
      | some rest => rest.length < (c :: cs).length
      | none => false)
    || depFindGo f (c = '\n') cs

/-- Does the `dependencies = [...]` pattern occur in the content? -/
def dep_pattern_found (content : String) : Bool :=
  depFindGo content.toList.length true content.toList

/-- The error the specification postulates for a descriptor without the
`dependencies = [...]` array.  The source never constructs it: `re.sub`
with no match is a no-op. -/
inductive MalformedManifestError : Type
  | malformed : MalformedManifestError
deriving DecidableEq, Repr

/-- `replace_dependencies_in_project_toml` (lines 4–15), file IO
factored out: the function reads the descriptor's `content`, substitutes
the regex by `new_deps`, and writes the result back.  The `Except`
result records that the Python function has no raising path — it always
returns the substituted content, matched or not. -/
def replace_dependencies_in_project_toml (new_deps content : String) :
    Except MalformedManifestError String :=
  Except.ok
    (String.mk
      (depSubGo new_deps.toList content.toList.length true content.toList))

/-- When the pattern occurs nowhere, the substitution scan copies the
content verbatim. -/
theorem depSubGo_of_not_found (newDeps : List Char) :
    ∀ (f : Nat) (st : Bool) (s : List Char),
      depFindGo f st s = false → depSubGo newDeps f st s = s := by
  intro f
  induction f with
  | zero => intro st s _; rfl
  | succ f ih =>
    intro st s hfind
    cases s with
    | nil => rfl
    | cons c cs =>
      rw [depFindGo] at hfind
      have hsplit := (Bool.or_eq_false_iff).mp hfind
      have hrest : depFindGo f (c = '\n') cs = false := hsplit.2
      rw [depSubGo]
      cases hst : st with
      | false => simp [ih _ _ hrest]
      | true =>
        rw [hst] at hsplit
        simp only [if_true]
        cases hm : depMatchAt (c :: cs) with
        | none => simp [ih _ _ hrest]
        | some rest =>
          have hlen : ¬ rest.length < (c :: cs).length := by
            have h1 := hsplit.1
            rw [hm] at h1
            simpa using h1
          have hlen' : ¬ rest.length < cs.length + 1 := by
            simpa using hlen
          simp [hlen, hlen', ih _ _ hrest]

/-! ## `utils.py` — `generate_pyproject_toml`

The version check is `re.match(r"^[0-9]+\.[0-9]+$", python_version)`.
Python's `re.match` anchors at the start only, and `$` matches at the
end of the string or just before one trailing `\n`; so the accepted
strings are `digits+ '.' digits+`, optionally followed by a single
trailing newline.  `[0-9]+` is greedy, but since `.` and the end are
not digits the maximal munch is exact. -/

/-- Python `re.match(r"^[0-9]+\.[0-9]+$", s)` as a Boolean. -/
def pyVersionMatch (s : String) : Bool :=
  match s.toList.span Char.isDigit with
  | ([], _) => false
  | (_ :: _, rest1) =>
    match rest1 with
    | '.' :: rest2 =>
      match rest2.span Char.isDigit with
      | ([], _) => false
      | (_ :: _, rest3) => rest3 = [] || rest3 = ['\n']
    | _ => false

/-- The `pyproject.toml` content written for a version (lines 77–84). -/
def pyprojectContent (pythonVersion : String) : String :=
  "[project]\nname = \"test_env_1\"\nversion = \"0.1.0\"\nrequires-python = \"=="
    ++ pythonVersion ++ ".*\"\ndependencies = [\n]\n"

/-- `generate_pyproject_toml` (lines 54–93), file IO factored out: the
result is the returned status code (`0` success, `1` error) together
with the content written to the output file, `none` when the function
returns before writing.  An empty version and a version failing the
regex both return `1` without writing. -/
def generate_pyproject_toml (pythonVersion : String) : Nat × Option String :=
  if pythonVersion = "" then (1, none)
  else if !pyVersionMatch pythonVersion then (1, none)
  else (0, some (pyprojectContent pythonVersion))

/-! ## `utils.py` — `_run_command` and `build_seed_env`

The external `uv` tool is an oracle `exec : List String → CmdOut`
giving, for each command line, the exit code and the stdout/stderr text
the process produces.  `subprocess.run(..., capture_output=False)`
leaves `stdout`/`stderr` as `None` on the `CompletedProcess` and on any
raised `CalledProcessError`; `build_seed_env` passes `capture_output`
nowhere, so the default `False` applies to every step. -/

/-- What an external command does when run: exit code and the output
text it produces on the two streams. -/
structure CmdOut where
  code : Nat
  out : String
  err : String

/-- Python `subprocess.CalledProcessError`: the non-zero exit code and
the captured streams (`none` when `capture_output` was off). -/
structure CalledProcessError where
  returncode : Nat
  stdout : Option String
  stderr : Option String
deriving DecidableEq, Repr

/-- Python `subprocess.CompletedProcess`, same capture convention. -/
structure CompletedProcess where
  returncode : Nat
  stdout : Option String
  stderr : Option String
deriving DecidableEq, Repr

/-- `_run_command` (lines 95–115) for a non-empty command list: run the
command, record the streams only under `captureOutput`, and with `check`
raise `CalledProcessError` on a non-zero exit.  (The `TypeError` and
`ValueError` guards concern non-list and empty arguments, which the
typed embedding cannot construct.) -/
def run_command (exec : List String → CmdOut) (commandList : List String)
    (captureOutput check : Bool) :
    Except CalledProcessError CompletedProcess :=
  let r := exec commandList
  let so : Option String := if captureOutput then some r.out else none
  let se : Option String := if captureOutput then some r.err else none
  if check && r.code != 0 then Except.error ⟨r.code, so, se⟩
  else Except.ok ⟨r.code, so, se⟩

/-- One step of `build_seed_env`: either the `os.remove("uv.lock")`
cleanup or a subprocess invocation. -/
inductive Action : Type
  | removeUvLock : Action
  | run (cmd : List String) : Action
deriving DecidableEq, Repr

/-- `uv add --managed-python --no-build --no-sync --resolution=highest -r seed`
(lines 143–146). -/
def uvAddSeed (seedFile : String) : List String :=
  ["uv", "add", "--managed-python", "--no-build", "--no-sync",
   "--resolution=highest", "-r", seedFile]

/-- `uv remove --managed-python --no-sync --resolution=highest dep`
(lines 159–162). -/
def uvRemove (dep : String) : List String :=
  ["uv", "remove", "--managed-python", "--no-sync",
   "--resolution=highest", dep]

/-- `uv add --managed-python --no-sync --resolution=highest -r project`
(lines 169–172). -/
def uvAddProject (projectRequirementsFile : String) : List String :=
  ["uv", "add", "--managed-python", "--no-sync", "--resolution=highest",
   "-r", projectRequirementsFile]

/-- `uv export ... --resolution=highest --output-file out` (176–179). -/
def uvExportHighest (outputFile : String) : List String :=
  ["uv", "export", "--managed-python", "--locked", "--no-hashes",
   "--no-annotate", "--resolution=highest", "--output-file", outputFile]

/-- `sys.executable lock_to_lower_bound_project.py out pyproject.toml`
(lines 183–185). -/
def lowerBoundScript (pythonExe outputFile : String) : List String :=
  [pythonExe, "lock_to_lower_bound_project.py", outputFile,
   "pyproject.toml"]

/-- `uv lock --managed-python --resolution=lowest` (lines 194–196). -/
def uvLockLowest : List String :=
  ["uv", "lock", "--managed-python", "--resolution=lowest"]

/-- `uv export ... --resolution=lowest --output-file out` (199–202). -/
def uvExportLowest (outputFile : String) : List String :=
  ["uv", "export", "--managed-python", "--locked", "--no-hashes",
   "--no-annotate", "--resolution=lowest", "--output-file", outputFile]

/-- The constraint-removal block (lines 148–166): only when a
constraints file name was supplied and the file exists are its lines
stripped, the empty ones dropped, and one `uv remove` issued per
remaining entry.  `constraintLines` is the file's line list, `none` when
the file does not exist (a warning in the source). -/
def constraintRemoveActions (constraintsFile : String)
    (constraintLines : Option (List String)) : List Action :=
  if constraintsFile != "" then
    match constraintLines with
    | some ls =>
      ((ls.map pyStrip).filter (fun l => l != "")).map
        (fun dep => Action.run (uvRemove dep))
    | none => []
  else []

/-- The full action sequence of `build_seed_env` (lines 117–227) in
source order: delete stale `uv.lock`, add seed deps (highest),
conditionally remove constraint packages, add project requirements
(highest), export highest to the output file, run the lower-bound
rewrite script, delete `uv.lock` again, re-lock at lowest, export lowest
to the same output file. -/
def build_seed_env_plan (pythonExe seedFile projectRequirementsFile
    outputFile constraintsFile : String)
    (constraintLines : Option (List String)) : List Action :=
  [Action.removeUvLock, Action.run (uvAddSeed seedFile)]
    ++ constraintRemoveActions constraintsFile constraintLines
    ++ [Action.run (uvAddProject projectRequirementsFile),
        Action.run (uvExportHighest outputFile),
        Action.run (lowerBoundScript pythonExe outputFile),
        Action.removeUvLock,
        Action.run uvLockLowest,
        Action.run (uvExportLowest outputFile)]

/-- Observable outcome of `build_seed_env`: the prefix of actions that
actually ran, the returned status code, and the `CalledProcessError`
caught by the `except` clause, if any. -/
structure BuildResult where
  trace : List Action
  ret : Nat
  err : Option CalledProcessError
deriving DecidableEq, Repr

/-- Run the actions in order.  `os.remove` always succeeds; each command
goes through `run_command` with `capture_output=False, check=True` as in
the source, and a raised `CalledProcessError` aborts the remaining
sequence — `build_seed_env`'s `except CalledProcessError` clause then
returns `1`. -/
def runActionSeq (exec : List String → CmdOut) : List Action → BuildResult
  | [] => ⟨[], 0, none⟩
  | Action.removeUvLock :: rest =>
    let r := runActionSeq exec rest
    ⟨Action.removeUvLock :: r.trace, r.ret, r.err⟩
  | Action.run cmd :: rest =>
    match run_command exec cmd false true with
    | Except.error e => ⟨[Action.run cmd], 1, some e⟩
    | Except.ok _ =>
      let r := runActionSeq exec rest
      ⟨Action.run cmd :: r.trace, r.ret, r.err⟩

/-- `build_seed_env` (lines 117–227) over the `exec` oracle. -/
def build_seed_env (exec : List String → CmdOut)
    (pythonExe seedFile projectRequirementsFile outputFile
      constraintsFile : String)
    (constraintLines : Option (List String)) : BuildResult :=
  runActionSeq exec
    (build_seed_env_plan pythonExe seedFile projectRequirementsFile
      outputFile constraintsFile constraintLines)

/-- When every command exits 0, the whole sequence runs and the build
returns 0 with no error. -/
theorem runActionSeq_all_ok (exec : List String → CmdOut)
    (hexec : ∀ cmd, (exec cmd).code = 0) :
    ∀ acts : List Action, runActionSeq exec acts = ⟨acts, 0, none⟩ := by
  intro acts
  induction acts with
  | nil => rfl
  | cons a rest ih =>
    cases a with
    | removeUvLock => simp [runActionSeq, ih]
    | run cmd =>
      rw [runActionSeq]
      have : run_command exec cmd false true
          = Except.ok ⟨0, none, none⟩ := by
        simp [run_command, hexec cmd]
      rw [this]
      simp [ih]

/-- A caught error means: some command in the sequence exited non-zero,
everything before it ran (and exited 0), the failing command is the last
trace entry, the build returned 1, and — `capture_output` being off —
the error's `stdout` and `stderr` are `None` while its `returncode` is
the failing command's exit code. -/
theorem runActionSeq_err (exec : List String → CmdOut) :
    ∀ (acts : List Action) (e : CalledProcessError),
      (runActionSeq exec acts).err = some e →
      (runActionSeq exec acts).ret = 1 ∧
      e.stdout = none ∧ e.stderr = none ∧
      ∃ pre cmd post,
        acts = pre ++ Action.run cmd :: post ∧
        (runActionSeq exec acts).trace = pre ++ [Action.run cmd] ∧
        (exec cmd).code ≠ 0 ∧ e.returncode = (exec cmd).code ∧
        ∀ c, Action.run c ∈ pre → (exec c).code = 0 := by
  intro acts
  induction acts with
  | nil => intro e he; simp [runActionSeq] at he
  | cons a rest ih =>
    intro e he
    cases a with
    | removeUvLock =>
      have he' : (runActionSeq exec rest).err = some e := by
        simpa [runActionSeq] using he
      obtain ⟨hret, hso, hse, pre, cmd, post, hacts, htrace, hcode, hrc,
        hpre⟩ := ih e he'
      refine ⟨by simpa [runActionSeq] using hret, hso, hse,
        Action.removeUvLock :: pre, cmd, post, by simp [hacts], ?_, hcode,
        hrc, ?_⟩
      · simpa [runActionSeq] using congrArg (Action.removeUvLock :: ·)
          htrace
      · intro c hc
        rcases List.mem_cons.mp hc with h1 | h2
        · simp at h1
        · exact hpre c h2
    | run cmd =>
      by_cases hc : (exec cmd).code = 0
      · have hok : run_command exec cmd false true
            = Except.ok ⟨0, none, none⟩ := by
          simp [run_command, hc]
        have he' : (runActionSeq exec rest).err = some e := by
          rw [runActionSeq, hok] at he
          simpa using he
        obtain ⟨hret, hso, hse, pre, cmd', post, hacts, htrace, hcode,
          hrc, hpre⟩ := ih e he'
        refine ⟨?_, hso, hse, Action.run cmd :: pre, cmd', post,
          by simp [hacts], ?_, hcode, hrc, ?_⟩
        · rw [runActionSeq, hok]; simpa using hret
        · rw [runActionSeq, hok]
          simpa using congrArg (Action.run cmd :: ·) htrace
        · intro c hcmem
          rcases List.mem_cons.mp hcmem with h1 | h2
          · cases h1; exact hc
          · exact hpre c h2
      · have herr : run_command exec cmd false true
            = Except.error ⟨(exec cmd).code, none, none⟩ := by
          simp [run_command, hc]
        rw [runActionSeq, herr] at he ⊢
        simp only [Option.some.injEq] at he
        refine ⟨rfl, ?_, ?_, [], cmd, rest, rfl, rfl, hc, ?_, ?_⟩
        · rw [← he]
        · rw [← he]
        · rw [← he]
        · intro c hcmem; cases hcmem

/-! ## `utils.py` — GitHub API helpers

An HTTP call either fails at the transport level
(`requests.exceptions.RequestException`) or yields a body; the body
either is not JSON or parses to an object, of which the source reads the
fields `message`, `sha` (commits endpoint) and `object.sha` (tags
endpoint).  A `sys.exit(1)` is `Except.error ()`. -/

/-- A JSON response body as the source consumes it. -/
inductive JsonBody : Type
  | invalid : JsonBody
  | fields (message : Option String) (sha : Option String)
      (objectSha : Option String) : JsonBody
deriving DecidableEq, Repr

/-- Outcome of one `requests.get`. -/
inductive FetchOutcome : Type
  | netError : FetchOutcome
  | response (body : JsonBody) : FetchOutcome
deriving DecidableEq, Repr

/-- The rate-limit marker the source searches for in `message`. -/
def rateLimitMarker : String := "API rate limit exceeded for "

/-- `_check_github_rest_api_message` (lines 229–259): a body that fails
to parse exits the process; otherwise a non-empty `message` containing
the rate-limit marker exits the process; anything else passes. -/
def check_github_rest_api_message (body : JsonBody) : Except Unit Unit :=
  match body with
  | JsonBody.invalid => Except.error ()
  | JsonBody.fields message _ _ =>
    let msg := message.getD ""
    if msg != "" then
      if pyContains msg rateLimitMarker then Except.error ()
      else Except.ok ()
    else Except.ok ()

/-- `[0-9a-fA-F]`. -/
def isAsciiHexDigit (c : Char) : Bool :=
  c.isDigit || ('a' ≤ c && c ≤ 'f') || ('A' ≤ c && c ≤ 'F')

/-- `re.match(r"^[0-9a-fA-F]{40}$", s)` under Python semantics: exactly
forty hexadecimal characters, optionally followed by one trailing
newline (`$` also matches just before a final `\n`). -/
def looksLikeCommitSha (s : String) : Bool :=
  let l := s.toList
  (l.length = 40 && l.all isAsciiHexDigit) ||
    (l.getLast? = some '\n' &&
      (l.dropLast.length = 40 && l.dropLast.all isAsciiHexDigit))

/-- Result of `is_valid_commit`: the returned Boolean (or a process
exit), plus whether the GitHub API was contacted at all. -/
structure ValidCommitResult where
  value : Except Unit Bool
  networkUsed : Bool
deriving Repr

/-- `is_valid_commit` (lines 261–318): a string that does not look like
a 40-hex commit SHA is rejected without any network call.  Otherwise the
commits endpoint is fetched; transport errors return `False`; the
response text goes through `check_github_rest_api_message` first (whose
`sys.exit(1)` is re-raised by the `except SystemExit` clause), and only
then is the `sha` field read — `None`, empty or the string `"null"`
give `False`, anything else `True`. -/
def is_valid_commit (inputRef : String) (commitsFetch : FetchOutcome) :
    ValidCommitResult :=
  if looksLikeCommitSha inputRef then
    match commitsFetch with
    | FetchOutcome.netError => ⟨Except.ok false, true⟩
    | FetchOutcome.response body =>
      match check_github_rest_api_message body with
      | Except.error _ => ⟨Except.error (), true⟩
      | Except.ok _ =>
        match body with
        | JsonBody.invalid => ⟨Except.ok false, true⟩
        | JsonBody.fields _ sha _ =>
          match sha with
          | none => ⟨Except.ok false, true⟩
          | some s =>
            if s = "" || s = "null" then ⟨Except.ok false, true⟩
            else ⟨Except.ok true, true⟩
  else ⟨Except.ok false, false⟩

/-- `get_commit_hash_for_tag` (lines 320–368): query the tags endpoint
(the body again passing through the rate-limit check first, whose exit
is re-raised); a transport error, non-JSON body, missing `object.sha` or
empty hash falls back to `is_valid_commit` on the input itself, which
either confirms the input as the hash or ends the run with
`sys.exit(1)`. -/
def get_commit_hash_for_tag (tagName : String)
    (tagsFetch commitsFetch : FetchOutcome) : Except Unit String :=
  let commitHash : Except Unit (Option String) :=
    match tagsFetch with
    | FetchOutcome.netError => Except.ok none
    | FetchOutcome.response body =>
      match check_github_rest_api_message body with
      | Except.error _ => Except.error ()
      | Except.ok _ =>
        match body with
        | JsonBody.invalid => Except.ok none
        | JsonBody.fields _ _ objectSha => Except.ok objectSha
  match commitHash with
  | Except.error _ => Except.error ()
  | Except.ok ch =>
    if ch.getD "" != "" then Except.ok (ch.getD "")
    else
      match (is_valid_commit tagName commitsFetch).value with
      | Except.error _ => Except.error ()
      | Except.ok true => Except.ok tagName
      | Except.ok false => Except.error ()

/-! ## `generate_seed_env_lock_files.py`

`main` is a straight-line sequence of `run_uv_command` calls; the trace
below lists the `uv` subcommand argument lists it issues, in order,
assuming each call succeeds (a failing call raises out of `main`, which
catches nothing).  The conditional blocks are the two
constraint-removal loops: the GPU-only packages are removed exactly
when NOT building a GPU environment, the TPU-only packages exactly when
NOT building a TPU environment. -/

/-- Python `s.startswith(pre)`. -/
def pyStartsWith (s pre : String) : Bool :=
  isPrefixL pre.toList s.toList

/-- `get_packages_from_file` (lines 133–142): strip each line, drop
empty lines and comment lines; a missing file yields the empty list. -/
def get_packages_from_file (fileLines : Option (List String)) :
    List String :=
  match fileLines with
  | none => []
  | some ls =>
    (ls.map pyStrip).filter (fun l => l != "" && !(pyStartsWith l "#"))

/-- The `uv` invocations of `generate_seed_env_lock_files.main`
(lines 5–101), in order. -/
def gen_seed_env_main_trace (seedRepoLockFile hostRepoRequirementsFile
    finalOutputFile : String)
    (gpuOnlyLines tpuOnlyLines : Option (List String))
    (buildingGpuEnv buildingTpuEnv : Bool) : List (List String) :=
  [["add", "--managed-python", "--no-build", "--no-sync",
    "--resolution=highest", "-r", seedRepoLockFile]]
  ++ (if !buildingGpuEnv then
        (get_packages_from_file gpuOnlyLines).map
          (fun p => ["remove", "--managed-python", "--no-sync",
                     "--resolution=highest", p])
      else [])
  ++ (if !buildingTpuEnv then
        (get_packages_from_file tpuOnlyLines).map
          (fun p => ["remove", "--managed-python", "--no-sync",
                     "--resolution=highest", p])
      else [])
  ++ [["add", "--managed-python", "--no-sync", "--resolution=highest",
       "-r", hostRepoRequirementsFile],
      ["export", "--managed-python", "--locked", "--no-hashes",
       "--no-annotate", "--resolution=highest", "--output-file",
       finalOutputFile]]

/-! ## `build_maxtext_lock_cli.py`

The strict driver: `--python-versions` is validated against the
supported set up front (any unsupported entry returns 1 before anything
else), a non-`main` commit is validated via `is_valid_commit` (invalid
returns 1), the host manifest download failure returns 1, and only then
does the double loop over versions × (tpu, gpu) run, each iteration
body wrapped in `try/except Exception: continue`, with `return 0` at
the end.  The loop body's effects are abstracted as an outcome oracle;
the pieces the claims inspect (seed-reference selection, `apply_patch`
arity, constraints-file choice) are embedded separately below. -/

/-- `SUPPORTED_PYTHON_VERSIONS` (line 16). -/
def SUPPORTED_PYTHON_VERSIONS : List String := ["3.11", "3.12"]

/-- `LATEST_JAX_VERSION` (line 18). -/
def LATEST_JAX_VERSION : String := "jax-v0.6.2"

/-- `JAX_PATCH_FILE` (line 20). -/
def JAX_PATCH_FILE : String := "jax_requirements_lock_3_10.patch"

/-- `CONSTRAINTS_GPU_ONLY` / `CONSTRAINTS_TPU_ONLY` (lines 22–24). -/
def CONSTRAINTS_GPU_ONLY : String := "constraints_gpu_only.txt"

def CONSTRAINTS_TPU_ONLY : String := "constraints_tpu_only.txt"

/-- A Python exception, as far as the driver's handlers distinguish
them. -/
inductive PyError : Type
  | typeError : PyError
  | attributeError : PyError
  | otherError : PyError
deriving DecidableEq, Repr

/-- The iteration keys of the double loop (lines 89–97): for each
version, machine types `tpu` then `gpu`. -/
def maxtext_iteration_keys (pythonVersions : List String) :
    List (String × String) :=
  pythonVersions.flatMap (fun v => [(v, "tpu"), (v, "gpu")])

/-- The `try/except Exception ... continue` loop (lines 109–165): every
key is attempted; a raising body is caught and the loop moves on.  Each
key is recorded with whether its body succeeded. -/
def run_iterations (body : String × String → Except PyError Unit) :
    List (String × String) → List ((String × String) × Bool)
  | [] => []
  | k :: ks =>
    match body k with
    | Except.ok _ => (k, true) :: run_iterations body ks
    | Except.error _ => (k, false) :: run_iterations body ks

/-- Observable outcome of `build_maxtext_lock_cli.main`: the iteration
keys attempted (in order) and the returned exit status. -/
structure MainResult where
  attempted : List (String × String)
  exitCode : Nat
deriving DecidableEq, Repr

/-- `build_maxtext_lock_cli.main` (lines 27–169) after argument
parsing: `commitValid` is the outcome `is_valid_commit` would produce
for the given commit (consulted only when the commit is not `main`),
`downloadOk` tells whether the host manifest download raises, and
`body` is the per-iteration loop body outcome. -/
def cli_main (pythonVersions : List String) (maxtextCommit : String)
    (commitValid downloadOk : Bool)
    (body : String × String → Except PyError Unit) : MainResult :=
  if pythonVersions.any
      (fun v => !(SUPPORTED_PYTHON_VERSIONS.contains v)) then
    ⟨[], 1⟩
  else if maxtextCommit != "main" && !commitValid then ⟨[], 1⟩
  else if !downloadOk then ⟨[], 1⟩
  else
    ⟨(run_iterations body (maxtext_iteration_keys pythonVersions)).map
      Prod.fst, 0⟩

/-- The constraints file handed to `build_seed_env` per machine type
(lines 124–137): `tpu` gets `constraints_tpu_only.txt`, `gpu` gets
`constraints_gpu_only.txt`, anything else skips the build. -/
def maxtext_constraints_file (machineType : String) : Option String :=
  if machineType = "tpu" then some CONSTRAINTS_TPU_ONLY
  else if machineType = "gpu" then some CONSTRAINTS_GPU_ONLY
  else none

/-- The seed-preparation branch (lines 113–121): for `"3.10"` the
driver calls `prepare_jax_seed.run(LATEST_JAX_VERSION, ...)` — ignoring
the `--jax-github-commit-or-version` argument — and then calls
`apply_patch(jax_temp_lock_file, JAX_PATCH_FILE)`; every other version
uses the caller-supplied reference and requests no patch.  Result: the
seed reference passed to `prepare_jax_seed.run`, and the argument pair
of the `apply_patch` call, when one is made. -/
def maxtext_seed_step (pythonVersion jaxArg jaxTempLockFile : String) :
    String × Option (String × String) :=
  if pythonVersion = "3.10" then
    (LATEST_JAX_VERSION, some (jaxTempLockFile, JAX_PATCH_FILE))
  else (jaxArg, none)

/-- `def apply_patch():` (lines 181–185) takes zero parameters and has
body `pass`. -/
def apply_patch_param_count : Nat := 0

/-- Calling a Python function with a number of positional arguments
different from its parameter count raises `TypeError`.  The driver's
call site (line 118) passes two arguments. -/
def apply_patch_invocation (argCount : Nat) : Except PyError Unit :=
  if argCount = apply_patch_param_count then Except.ok ()
  else Except.error PyError.typeError

/-- All keys are attempted, in order, whatever the body outcomes. -/
theorem run_iterations_attempts_all
    (body : String × String → Except PyError Unit) :
    ∀ ks : List (String × String),
      (run_iterations body ks).map Prod.fst = ks := by
  intro ks
  induction ks with
  | nil => rfl
  | cons k ks ih =>
    rw [run_iterations]
    cases body k with
    | ok u => simpa using ih
    | error e => simpa using ih

/-! ## Claim theorems -/

/-- Claim C1: for every lock-file line, the lower-bound rewrite keeps
the line (stripped of surrounding whitespace, as the source appends
`line.strip()`) exactly when the line contains no `#` and contains `==`
or `@`, and rewrites every `==` occurrence in a kept line to `>=`.  In
particular a manifest containing only `pkg==1.2.3` converts to exactly
`pkg>=1.2.3`, and a line `pkg>=1.0` (containing neither `==` nor `@`)
is excluded from the converted set entirely. -/
theorem C1_lower_bound_rewrite :
    (∀ fileLines : List String,
      read_requirements_lock_file fileLines
        = (fileLines.filter keeps_line).map pyStrip ∧
      convert_deps_to_lower_bound (read_requirements_lock_file fileLines)
        = (fileLines.filter keeps_line).map
            (fun l => pyReplace (pyStrip l) "==" ">="))
    ∧ convert_deps_to_lower_bound
        (read_requirements_lock_file ["pkg==1.2.3"]) = ["pkg>=1.2.3"]
    ∧ keeps_line "pkg>=1.0" = false
    ∧ convert_deps_to_lower_bound
        (read_requirements_lock_file ["pkg>=1.0"]) = [] := by
  refine ⟨fun fileLines => ⟨read_requirements_lock_file_eq fileLines, ?_⟩,
    by decide, by decide, by decide⟩
  rw [convert_deps_to_lower_bound_eq, read_requirements_lock_file_eq,
    List.map_map]
  rfl

/-- Claim C10: when the lock file has no keepable line, the spliced
block is `dependencies = [` followed by a single empty-string entry and
`]` — a one-element array containing the empty string, not an empty
array. -/
theorem C10_empty_manifest_block :
    ∀ fileLines : List String,
      read_requirements_lock_file fileLines = [] →
      lower_boud_deps_to_string
        (convert_deps_to_lower_bound (read_requirements_lock_file fileLines))
        = "dependencies = [\n    \"\"\n]" := by
  intro fileLines h
  rw [h]
  decide

/-- Witness for C10 at a lock file whose every line is a comment or a
non-pinned entry. -/
theorem C10_empty_manifest_block_witness :
    read_requirements_lock_file ["# via uv export", "pkg>=1.0"] = [] ∧
    lower_boud_deps_to_string
      (convert_deps_to_lower_bound
        (read_requirements_lock_file ["# via uv export", "pkg>=1.0"]))
      = "dependencies = [\n    \"\"\n]" :=
  ⟨by decide,
   C10_empty_manifest_block ["# via uv export", "pkg>=1.0"] (by decide)⟩

/-- Counterexample to claim C4 as stated: on a descriptor that does not
contain the `dependencies = [...]` array pattern, the rewrite raises
nothing — `re.sub` finds no match and the function writes the content
back unchanged, returning normally instead of failing with
`MalformedManifestError`. -/
theorem C4_counterexample :
    dep_pattern_found "x = 1\n" = false ∧
    replace_dependencies_in_project_toml "NEW" "x = 1\n"
      = Except.ok "x = 1\n" := by
  constructor
  · decide
  · rfl

/-- Claim C4 (amended): when the `dependencies = [...]` array pattern
is absent from the project descriptor, the lower-bound rewrite does not
fail — the substitution is a no-op and the descriptor content is
written back unchanged. -/
theorem C4_absent_pattern_noop :
    ∀ newDeps content : String,
      dep_pattern_found content = false →
      replace_dependencies_in_project_toml newDeps content
        = Except.ok content := by
  intro newDeps content h
  unfold replace_dependencies_in_project_toml
  rw [depSubGo_of_not_found newDeps.toList _ _ _ h]
  rfl

/-- Witness for the amended C4 at a concrete pattern-free descriptor. -/
theorem C4_absent_pattern_noop_witness :
    dep_pattern_found "[project]\nname = \"t\"\n" = false ∧
    replace_dependencies_in_project_toml "NEW" "[project]\nname = \"t\"\n"
      = Except.ok "[project]\nname = \"t\"\n" :=
  ⟨by decide,
   C4_absent_pattern_noop "NEW" "[project]\nname = \"t\"\n" (by decide)⟩

/-- Claim C2 (amended): `build_seed_env` executes the fixed sequence —
delete stale `uv.lock`, add seed deps (highest), conditionally remove
constraint packages, add host requirements (highest), export highest to
the output path, run the lower-bound rewrite, delete `uv.lock` again,
re-resolve lowest and export lowest over the same path — in order when
every step exits 0, returning 0; and any step's non-zero exit aborts
the remaining sequence with a `CalledProcessError` carrying the exit
code, the function returning 1.  Because the builder invokes every
command without output capture, the error's `stdout` and `stderr` are
`None`, not the text the failing command produced. -/
theorem C2_build_seed_env_sequence :
    ∀ (exec : List String → CmdOut)
      (pythonExe seedFile projFile outFile constraintsFile : String)
      (constraintLines : Option (List String)),
      ((∀ cmd, (exec cmd).code = 0) →
        build_seed_env exec pythonExe seedFile projFile outFile
            constraintsFile constraintLines
          = ⟨build_seed_env_plan pythonExe seedFile projFile outFile
              constraintsFile constraintLines, 0, none⟩)
      ∧ (∀ e : CalledProcessError,
          (build_seed_env exec pythonExe seedFile projFile outFile
              constraintsFile constraintLines).err = some e →
          (build_seed_env exec pythonExe seedFile projFile outFile
              constraintsFile constraintLines).ret = 1 ∧
          e.stdout = none ∧ e.stderr = none ∧
          ∃ pre cmd post,
            build_seed_env_plan pythonExe seedFile projFile outFile
                constraintsFile constraintLines
              = pre ++ Action.run cmd :: post ∧
            (build_seed_env exec pythonExe seedFile projFile outFile
                constraintsFile constraintLines).trace
              = pre ++ [Action.run cmd] ∧
            (exec cmd).code ≠ 0 ∧ e.returncode = (exec cmd).code ∧
            ∀ c, Action.run c ∈ pre → (exec c).code = 0) := by
  intro exec pythonExe seedFile projFile outFile constraintsFile
    constraintLines
  constructor
  · intro hexec
    exact runActionSeq_all_ok exec hexec _
  · intro e he
    obtain ⟨hret, hso, hse, pre, cmd, post, hacts, htrace, hcode, hrc,
      hpre⟩ := runActionSeq_err exec _ e he
    exact ⟨hret, hso, hse, pre, cmd, post, hacts, htrace, hcode, hrc,
      hpre⟩

/-- Witness for C2 with an all-succeeding resolver: the full plan runs
and the build returns 0. -/
theorem C2_build_seed_env_sequence_witness :
    build_seed_env (fun _ => ⟨0, "", ""⟩) "python3" "seed.txt"
        "requirements.txt" "out.txt" "constraints_tpu_only.txt"
        (some ["torch"])
      = ⟨build_seed_env_plan "python3" "seed.txt" "requirements.txt"
          "out.txt" "constraints_tpu_only.txt" (some ["torch"]), 0,
          none⟩ :=
  (C2_build_seed_env_sequence (fun _ => ⟨0, "", ""⟩) "python3" "seed.txt"
    "requirements.txt" "out.txt" "constraints_tpu_only.txt"
    (some ["torch"])).1 (fun _ => rfl)

/-- Counterexample to claim C2 as stated: when the first resolver step
fails with exit code 1 while printing `boom`/`bang` on its streams, the
raised error's `stdout` and `stderr` are `None` — the output was never
captured (`capture_output` defaults to `False` in `_run_command` and
`build_seed_env` never sets it) — so the error does not carry the
captured stdout/stderr the claim describes. -/
theorem C2_counterexample :
    (build_seed_env (fun _ => ⟨1, "boom", "bang"⟩) "python3" "seed.txt"
        "requirements.txt" "out.txt" "" none).err
      = some ⟨1, none, none⟩ ∧
    ((fun (_ : List String) => CmdOut.mk 1 "boom" "bang")
        (uvAddSeed "seed.txt")).out = "boom" ∧
    (build_seed_env (fun _ => ⟨1, "boom", "bang"⟩) "python3" "seed.txt"
        "requirements.txt" "out.txt" "" none).err
      ≠ some ⟨1, some "boom", some "bang"⟩ := by
  refine ⟨rfl, rfl, ?_⟩
  intro h
  have h1 : (build_seed_env (fun _ => ⟨1, "boom", "bang"⟩) "python3"
      "seed.txt" "requirements.txt" "out.txt" "" none).err
      = some ⟨1, none, none⟩ := rfl
  rw [h1] at h
  simp at h

/-- Claim C3, evaluated at the failing configuration: in
`generate_seed_env_lock_files.main` the claim holds — with `torch` and
`torchvision` in the GPU-only constraints file, a GPU build issues no
remove call for them and a TPU build issues one for each — but the
`build_maxtext_lock_cli` driver hands the GPU build the GPU-only
constraints file itself, so `build_seed_env` then issues
`uv remove torch` and `uv remove torchvision` during the GPU build. -/
theorem C3_constraint_removal :
    (["remove", "--managed-python", "--no-sync", "--resolution=highest",
        "torch"]
      ∉ gen_seed_env_main_trace "seed.txt" "requirements.txt" "out.txt"
          (some ["torch", "torchvision"]) (some []) true false) ∧
    (["remove", "--managed-python", "--no-sync", "--resolution=highest",
        "torchvision"]
      ∉ gen_seed_env_main_trace "seed.txt" "requirements.txt" "out.txt"
          (some ["torch", "torchvision"]) (some []) true false) ∧
    (["remove", "--managed-python", "--no-sync", "--resolution=highest",
        "torch"]
      ∈ gen_seed_env_main_trace "seed.txt" "requirements.txt" "out.txt"
          (some ["torch", "torchvision"]) (some []) false true) ∧
    (["remove", "--managed-python", "--no-sync", "--resolution=highest",
        "torchvision"]
      ∈ gen_seed_env_main_trace "seed.txt" "requirements.txt" "out.txt"
          (some ["torch", "torchvision"]) (some []) false true) ∧
    maxtext_constraints_file "gpu" = some CONSTRAINTS_GPU_ONLY ∧
    (Action.run (uvRemove "torch")
      ∈ build_seed_env_plan "python3" "requirements_lock_3_11.txt"
          "requirements.txt" "maxtext_requirements_lock_gpu_3_11.txt"
          CONSTRAINTS_GPU_ONLY (some ["torch", "torchvision"])) ∧
    (Action.run (uvRemove "torchvision")
      ∈ build_seed_env_plan "python3" "requirements_lock_3_11.txt"
          "requirements.txt" "maxtext_requirements_lock_gpu_3_11.txt"
          CONSTRAINTS_GPU_ONLY (some ["torch", "torchvision"])) := by
  refine ⟨by decide, by decide, by decide, by decide, rfl, by decide,
    by decide⟩

/-- Claim C5: the driver attempts every `(python_version, machine_type)`
key in order whatever each iteration body does (failures are caught and
the loop continues), returning exit code 0; the exit code is 1 only
when an early fatal precondition — an unsupported requested version, an
invalid commit reference, or a host manifest download failure — fires
before any iteration runs. -/
theorem C5_driver_loop :
    ∀ (versions : List String) (commit : String)
      (commitValid downloadOk : Bool)
      (body : String × String → Except PyError Unit),
      ((versions.all
          (fun v => SUPPORTED_PYTHON_VERSIONS.contains v) = true) →
        (commit = "main" ∨ commitValid = true) → downloadOk = true →
        cli_main versions commit commitValid downloadOk body
          = ⟨maxtext_iteration_keys versions, 0⟩)
      ∧ ((cli_main versions commit commitValid downloadOk body).exitCode
            = 1 →
          (cli_main versions commit commitValid downloadOk
            body).attempted = [] ∧
          ((∃ v ∈ versions, SUPPORTED_PYTHON_VERSIONS.contains v = false)
            ∨ (commit ≠ "main" ∧ commitValid = false)
            ∨ downloadOk = false))
      ∧ ((cli_main versions commit commitValid downloadOk body).exitCode
            = 0
          ∨ (cli_main versions commit commitValid downloadOk
              body).exitCode = 1) := by
  intro versions commit commitValid downloadOk body
  refine ⟨?_, ?_, ?_⟩
  · intro hall hcommit hdl
    have h1 : versions.any
        (fun v => !(SUPPORTED_PYTHON_VERSIONS.contains v)) = false := by
      rw [List.any_eq_false]
      intro v hv
      have hc := List.all_eq_true.mp hall v hv
      simpa using hc
    have h2 : (commit != "main" && !commitValid) = false := by
      rcases hcommit with h | h
      · simp [h]
      · simp [h]
    rw [cli_main, h1, h2, hdl]
    simp [run_iterations_attempts_all]
  · intro hexit
    rw [cli_main] at hexit ⊢
    by_cases h1 : versions.any
        (fun v => !(SUPPORTED_PYTHON_VERSIONS.contains v)) = true
    · rw [if_pos h1] at hexit ⊢
      obtain ⟨v, hv, hbad⟩ := List.any_eq_true.mp h1
      exact ⟨rfl, Or.inl ⟨v, hv, by simpa using hbad⟩⟩
    · rw [if_neg h1] at hexit ⊢
      by_cases h2 : (commit != "main" && !commitValid) = true
      · rw [if_pos h2] at hexit ⊢
        rw [Bool.and_eq_true] at h2
        refine ⟨rfl, Or.inr (Or.inl ⟨?_, ?_⟩)⟩
        · exact bne_iff_ne.mp h2.1
        · simpa using h2.2
      · rw [if_neg h2] at hexit ⊢
        by_cases h3 : downloadOk = true
        · rw [h3] at hexit
          simp at hexit
        · have h3' : downloadOk = false := Bool.eq_false_iff.mpr h3
          rw [h3'] at hexit ⊢
          exact ⟨rfl, Or.inr (Or.inr rfl)⟩
  · rw [cli_main]
    by_cases h1 : versions.any
        (fun v => !(SUPPORTED_PYTHON_VERSIONS.contains v)) = true
    · rw [if_pos h1]; exact Or.inr rfl
    · rw [if_neg h1]
      by_cases h2 : (commit != "main" && !commitValid) = true
      · rw [if_pos h2]; exact Or.inr rfl
      · rw [if_neg h2]
        by_cases h3 : downloadOk = true
        · simp [h3]
        · have h3' : downloadOk = false := Bool.eq_false_iff.mpr h3
          rw [h3']; exact Or.inr rfl

/-- Witness for C5: versions `3.11` and `3.12`, a valid setup, and a
body that raises on every GPU iteration — all four keys are attempted
and the exit code is still 0. -/
theorem C5_driver_loop_witness :
    cli_main ["3.11", "3.12"] "main" true true
        (fun k => if k.2 = "gpu" then Except.error PyError.otherError
                  else Except.ok ())
      = ⟨[("3.11", "tpu"), ("3.11", "gpu"), ("3.12", "tpu"),
          ("3.12", "gpu")], 0⟩ :=
  (C5_driver_loop ["3.11", "3.12"] "main" true true
    (fun k => if k.2 = "gpu" then Except.error PyError.otherError
              else Except.ok ())).1 (by decide) (Or.inl rfl) rfl

/-- Helper for C6: a message containing the rate-limit marker is
non-empty, so `check_github_rest_api_message` exits on it. -/
theorem check_message_rate_limit (msg : String)
    (sha objectSha : Option String)
    (h : pyContains msg rateLimitMarker = true) :
    check_github_rest_api_message
      (JsonBody.fields (some msg) sha objectSha) = Except.error () := by
  have hne : msg ≠ "" := by
    intro h0
    have hnil := ne_nil_of_containsSub rateLimitMarker.toList msg.toList
      (by decide) h
    rw [h0] at hnil
    exact hnil rfl
  rw [check_github_rest_api_message]
  simp only [Option.getD_some]
  rw [if_pos (bne_iff_ne.mpr hne), if_pos h]

/-- Claim C6: a response whose `message` contains
`API rate limit exceeded for ` makes the rate-limit check fire before
any normal field extraction, and the run terminates fatally
(`sys.exit(1)`) from both callers — commit validation and tag
resolution — overriding the commit validator's usual
return-false-on-error rule; the `sha`/`object.sha` fields are never
consulted. -/
theorem C6_rate_limit_fatal :
    ∀ (msg : String) (sha objectSha : Option String) (ref tag : String)
      (commitsFetch : FetchOutcome),
      pyContains msg rateLimitMarker = true →
      (check_github_rest_api_message
          (JsonBody.fields (some msg) sha objectSha) = Except.error ())
      ∧ (looksLikeCommitSha ref = true →
          is_valid_commit ref
            (FetchOutcome.response (JsonBody.fields (some msg) sha objectSha))
            = ⟨Except.error (), true⟩)
      ∧ get_commit_hash_for_tag tag
          (FetchOutcome.response (JsonBody.fields (some msg) sha objectSha))
          commitsFetch = Except.error () := by
  intro msg sha objectSha ref tag commitsFetch h
  have hcheck := check_message_rate_limit msg sha objectSha h
  refine ⟨hcheck, fun href => ?_, ?_⟩
  · rw [is_valid_commit.eq_def, if_pos href]
    simp only [hcheck]
  · rw [get_commit_hash_for_tag]
    simp only [hcheck]

/-- Witness for C6 with a concrete rate-limit response: both the commit
validator and the tag resolver end the run fatally. -/
theorem C6_rate_limit_fatal_witness :
    pyContains "API rate limit exceeded for 203.0.113.7" rateLimitMarker
      = true ∧
    is_valid_commit "1ad05bb26105f23ee7728b36cca12901fe70e187"
        (FetchOutcome.response
          (JsonBody.fields (some "API rate limit exceeded for 203.0.113.7")
            (some "1ad05bb26105f23ee7728b36cca12901fe70e187") none))
      = ⟨Except.error (), true⟩ ∧
    get_commit_hash_for_tag "jax-v0.6.2"
        (FetchOutcome.response
          (JsonBody.fields (some "API rate limit exceeded for 203.0.113.7")
            none (some "1ad05bb26105f23ee7728b36cca12901fe70e187")))
        FetchOutcome.netError = Except.error () :=
  ⟨by decide,
   (C6_rate_limit_fatal "API rate limit exceeded for 203.0.113.7"
      (some "1ad05bb26105f23ee7728b36cca12901fe70e187") none
      "1ad05bb26105f23ee7728b36cca12901fe70e187" "jax-v0.6.2"
      FetchOutcome.netError (by decide)).2.1 (by decide),
   (C6_rate_limit_fatal "API rate limit exceeded for 203.0.113.7" none
      (some "1ad05bb26105f23ee7728b36cca12901fe70e187")
      "1ad05bb26105f23ee7728b36cca12901fe70e187" "jax-v0.6.2"
      FetchOutcome.netError (by decide)).2.2⟩

/-- Helper for C7: the only way `is_valid_commit` returns `True` is a
pattern-matching input together with a response carrying a `sha` field
that is neither absent, empty, nor the string `null`. -/
theorem is_valid_commit_true_shape (ref : String) (fetch : FetchOutcome)
    (hval : (is_valid_commit ref fetch).value = Except.ok true) :
    looksLikeCommitSha ref = true ∧
      ∃ m s o,
        fetch = FetchOutcome.response (JsonBody.fields m (some s) o)
          ∧ s ≠ "" ∧ s ≠ "null" := by
  rw [is_valid_commit.eq_def] at hval
  by_cases href : looksLikeCommitSha ref = true
  · rw [if_pos href] at hval
    refine ⟨href, ?_⟩
    split at hval
    · simp at hval
    · split at hval
      · simp at hval
      · split at hval
        · simp at hval
        · split at hval
          · simp at hval
          · split at hval
            · simp at hval
            · rename_i hs
              refine ⟨_, _, _, rfl, ?_, ?_⟩ <;>
                · intro h
                  subst h
                  simp at hs
  · rw [if_neg href] at hval
    simp at hval

/-- Claim C7 (amended): the Commit Validator returns `True` only when
the input matches the 40-hex pattern (under Python `re.match` `$`
semantics, which also accept one trailing newline) and the commits API
returned a non-null, non-empty SHA; an input failing the pattern
returns `False` with no network call; a transport error returns
`False`; but a JSON-parse failure of the response body terminates the
process fatally (the rate-limit pre-check exits on invalid JSON) rather
than returning `False`. -/
theorem C7_commit_validator :
    ∀ (ref : String) (fetch : FetchOutcome),
      (looksLikeCommitSha ref = false →
        is_valid_commit ref fetch = ⟨Except.ok false, false⟩)
      ∧ ((is_valid_commit ref fetch).value = Except.ok true →
          looksLikeCommitSha ref = true ∧
          ∃ m s o,
            fetch = FetchOutcome.response (JsonBody.fields m (some s) o)
              ∧ s ≠ "" ∧ s ≠ "null")
      ∧ (fetch = FetchOutcome.netError →
          (is_valid_commit ref fetch).value = Except.ok false)
      ∧ (looksLikeCommitSha ref = true →
          (is_valid_commit ref
            (FetchOutcome.response JsonBody.invalid)).value
            = Except.error ()) := by
  intro ref fetch
  refine ⟨?_, is_valid_commit_true_shape ref fetch, ?_, ?_⟩
  · intro h
    rw [is_valid_commit.eq_def, if_neg (by simp [h])]
  · intro h
    subst h
    by_cases href : looksLikeCommitSha ref = true
    · rw [is_valid_commit.eq_def, if_pos href]
    · rw [is_valid_commit.eq_def, if_neg href]
  · intro href
    rw [is_valid_commit.eq_def, if_pos href]
    simp [check_github_rest_api_message]

/-- Witness for the amended C7: a malformed reference is rejected with
no network use, and a transport error yields `False`. -/
theorem C7_commit_validator_witness :
    looksLikeCommitSha "not-a-sha" = false ∧
    is_valid_commit "not-a-sha" FetchOutcome.netError
      = ⟨Except.ok false, false⟩ ∧
    (is_valid_commit "aaaaaaaaaaaaaaaaaaaaaaaaaaaaaaaaaaaaaaaa"
        FetchOutcome.netError).value = Except.ok false :=
  ⟨by decide,
   (C7_commit_validator "not-a-sha" FetchOutcome.netError).1 (by decide),
   (C7_commit_validator "aaaaaaaaaaaaaaaaaaaaaaaaaaaaaaaaaaaaaaaa"
      FetchOutcome.netError).2.2.1 rfl⟩

/-- Counterexample to claim C7 as stated: the input of forty `a`s plus
a trailing newline has length 41 yet triggers a network call (Python's
`$` matches before a final newline), and a response whose body is not
valid JSON makes the validator terminate the process
(`Except.error ()`), not return `False`. -/
theorem C7_counterexample :
    ("aaaaaaaaaaaaaaaaaaaaaaaaaaaaaaaaaaaaaaaa\n").length = 41 ∧
    (is_valid_commit "aaaaaaaaaaaaaaaaaaaaaaaaaaaaaaaaaaaaaaaa\n"
        FetchOutcome.netError).networkUsed = true ∧
    (is_valid_commit "aaaaaaaaaaaaaaaaaaaaaaaaaaaaaaaaaaaaaaaa"
        (FetchOutcome.response JsonBody.invalid)).value
      = Except.error () := by
  refine ⟨by decide, by decide, rfl⟩

/-- Claim C8 (amended): a version string failing the
`^[0-9]+\.[0-9]+$` check (under Python `re.match` semantics) makes the
Initializer return a failure status without writing a file; but in the
strict driver such a version is rejected up front — the whole run
aborts with exit code 1 before any iteration, rather than the failure
being non-fatal and the single iteration skipped. -/
theorem C8_invalid_version_handling :
    ∀ v : String, pyVersionMatch v = false →
      generate_pyproject_toml v = (1, none) ∧
      ∀ (versions : List String) (commit : String) (cv dl : Bool)
        (body : String × String → Except PyError Unit),
        v ∈ versions →
        cli_main versions commit cv dl body = ⟨[], 1⟩ := by
  intro v hv
  constructor
  · rw [generate_pyproject_toml]
    by_cases h0 : v = ""
    · rw [if_pos h0]
    · rw [if_neg h0, if_pos (by simp [hv])]
  · intro versions commit cv dl body hmem
    have h11 : v ≠ "3.11" := by
      intro he; rw [he] at hv; exact absurd hv (by decide)
    have h12 : v ≠ "3.12" := by
      intro he; rw [he] at hv; exact absurd hv (by decide)
    have hany : versions.any
        (fun x => !(SUPPORTED_PYTHON_VERSIONS.contains x)) = true := by
      rw [List.any_eq_true]
      exact ⟨v, hmem, by simp [SUPPORTED_PYTHON_VERSIONS, h11, h12]⟩
    rw [cli_main, if_pos hany]

/-- Witness for the amended C8 at the empty version string. -/
theorem C8_invalid_version_handling_witness :
    pyVersionMatch "" = false ∧
    generate_pyproject_toml "" = (1, none) ∧
    cli_main ["3.11", ""] "main" true true (fun _ => Except.ok ())
      = ⟨[], 1⟩ :=
  ⟨by decide, (C8_invalid_version_handling "" (by decide)).1,
   (C8_invalid_version_handling "" (by decide)).2 ["3.11", ""] "main"
     true true (fun _ => Except.ok ()) (by simp)⟩

/-- Counterexample to claim C8 as stated: with the malformed version
`3.10.5` in the requested list, the Initializer would indeed fail
without writing, but the run is aborted — exit code 1, zero iterations
attempted — instead of the failure being logged and only that
iteration skipped. -/
theorem C8_counterexample :
    pyVersionMatch "3.10.5" = false ∧
    generate_pyproject_toml "3.10.5" = (1, none) ∧
    cli_main ["3.11", "3.10.5"] "main" true true (fun _ => Except.ok ())
      = ⟨[], 1⟩ := by
  refine ⟨by decide, by decide, by decide⟩

/-- Claim C9, evaluated at the failing configuration: the driver's
branch for the legacy version `3.10` does select the single known-good
seed release `jax-v0.6.2` whatever seed reference the caller supplied,
and any other version uses the caller's reference with no patch call;
but the requested patch application is broken — `apply_patch` is
defined with zero parameters and body `pass`, so the driver's
two-argument call raises `TypeError` and no patch is ever applied. -/
theorem C9_legacy_seed_and_patch :
    ∀ (jaxArg lockFile v : String),
      maxtext_seed_step "3.10" jaxArg lockFile
        = (LATEST_JAX_VERSION, some (lockFile, JAX_PATCH_FILE)) ∧
      (v ≠ "3.10" → maxtext_seed_step v jaxArg lockFile = (jaxArg, none))
      ∧ apply_patch_invocation 2 = Except.error PyError.typeError := by
  intro jaxArg lockFile v
  refine ⟨rfl, fun hv => ?_, rfl⟩
  rw [maxtext_seed_step, if_neg hv]

/-- Witness for C9 at concrete versions `3.10` and `3.11`. -/
theorem C9_legacy_seed_and_patch_witness :
    maxtext_seed_step "3.10" "jax-v0.5.3" "requirements_lock_3_10.txt"
      = (LATEST_JAX_VERSION,
         some ("requirements_lock_3_10.txt", JAX_PATCH_FILE)) ∧
    maxtext_seed_step "3.11" "jax-v0.5.3" "requirements_lock_3_11.txt"
      = ("jax-v0.5.3", none) ∧
    apply_patch_invocation 2 = Except.error PyError.typeError :=
  ⟨(C9_legacy_seed_and_patch "jax-v0.5.3" "requirements_lock_3_10.txt"
      "3.11").1,
   (C9_legacy_seed_and_patch "jax-v0.5.3" "requirements_lock_3_11.txt"
      "3.11").2.1 (by decide),
   (C9_legacy_seed_and_patch "jax-v0.5.3" "requirements_lock_3_10.txt"
      "3.11").2.2⟩

end SeedEnv
